import Mathlib

set_option linter.unusedVariables false

namespace Spec2Proof

/-!
Shallow embedding of the Ruby runtime fingerprinter
(`googlecloudsdk/api_lib/app/runtimes/ruby.py`).

The filesystem is modelled as an association list from filename to
contents; subprocess results (`bundle version`, `bundle check`,
`bundle list`, `bundle platform --ruby`) and console interactivity are
modelled as fields of an `Env` record, since the Python code consults
them through ambient effects.  Fallible functions return `Except
RubyError`, with one constructor per distinct raise site of
`RubyConfigError` and its subclasses.
-/

/-- Distinct error kinds: `MissingGemfileError`, `StaleBundleError`, and the
plain `RubyConfigError` raise sites in `_ChooseEntrypoint` and
`_RunSubprocess`. -/
inductive RubyError where
  | missingGemfile
  | staleBundle
  | entrypointRequired
  | nonInteractive
  | subprocessFailed (cmd : String)
deriving DecidableEq, Repr

/-- Pre-existing declarative config (the parsed app.yaml).  An empty
`entrypoint` string models a missing/falsy entrypoint field.
`runtime` models `GetEffectiveRuntime()` (Modelled from the spec: the
declared runtime name; the appengine appinfo class is not in this tree). -/
structure AppInfo where
  runtime : String
  entrypoint : String
deriving DecidableEq, Repr

/-- `ext_runtime.Params` fields used by this module. -/
structure Params where
  appinfo : Option AppInfo
  custom : Bool
  deploy : Bool
deriving DecidableEq, Repr

/-- Ambient environment: source tree (filename to contents), console
interactivity, and the outcomes of the four fixed subprocess commands. -/
structure Env where
  files : List (String × String)
  canPrompt : Bool
  promptContinue : Bool
  promptResponse : String
  bundleVersionOk : Bool
  bundleCheckOk : Bool
  bundleListOk : Bool
  bundleListOut : List String
  bundlePlatformOk : Bool
  bundlePlatformOut : String
deriving DecidableEq, Repr

/-- `os.path.isfile(os.path.join(path, name))` over the modelled tree. -/
def hasFile (env : Env) (name : String) : Bool :=
  (env.files.lookup name).isSome

def PREFERRED_RUBY_VERSION : String := "2.3.0"

def BUNDLER_VERSION : String := "1.11.2"

def FOREMAN_VERSION : String := "0.78.0"

/-- `RUBY_VERSION_MAP`: Gemfile versions to rbenv versions with patchlevel. -/
def RUBY_VERSION_MAP : List (String × String) :=
  [("1.8.6", "1.8.6-p420"),
   ("1.8.7", "1.8.7-p375"),
   ("1.9.1", "1.9.1-p430"),
   ("1.9.2", "1.9.2-p330"),
   ("1.9.3", "1.9.3-p551"),
   ("2.0.0", "2.0.0-p648")]

/-- `RUBY_VERSION_MAP.get(ruby_version, ruby_version)` in Python. -/
def rubyVersionMapGet (v : String) : String :=
  (RUBY_VERSION_MAP.lookup v).getD v

/-- `GEM_PACKAGES`: gems to the system packages they expect. -/
def GEM_PACKAGES : List (String × List String) :=
  [("rgeo", ["libgeos-dev", "libproj-dev"])]

def ENTRYPOINT_FOREMAN : String := "foreman start web -p 8080"

def ENTRYPOINT_PUMA : String := "bundle exec puma -p 8080 -e deployment"

def ENTRYPOINT_UNICORN : String := "bundle exec unicorn -p 8080 -E deployment"

def ENTRYPOINT_RACKUP : String := "bundle exec rackup -p 8080 -E deployment config.ru"

/-- Notice printed by `_CheckEnvironment` when bundler works but no
Gemfile.lock is present. -/
def GEMFILE_LOCK_NOTICE : String :=
  "\nNOTICE: We could not find a Gemfile.lock, which suggests this application has not been tested locally, or the Gemfile.lock has not been committed to source control. We have created a Gemfile.lock for you, but it is recommended that you verify it yourself (by installing your bundle and testing locally) to ensure that the gems we deploy are the same as those you tested."

/-- Warning printed by `_CheckEnvironment` when bundler cannot be run. -/
def BUNDLER_UNAVAILABLE_NOTICE : String :=
  "\nNOTICE: gcloud could not run bundler in your local environment, and so its ability to determine your application\x27s requirements will be limited. We will still attempt to deploy your application, but if your application has trouble starting up due to missing requirements, we recommend installing bundler by running [gem install bundler]"

/-- `_CheckForRubyRuntime`: honor the appinfo runtime setting; otherwise
check for a Gemfile and (when interactive) confirm with the user. -/
def _CheckForRubyRuntime (env : Env) (appinfo : Option AppInfo) : Bool :=
  if (match appinfo with
      | some ai => ai.runtime == "ruby"
      | none => false) then
    true
  else if !(hasFile env "Gemfile") then
    false
  else if env.canPrompt then
    env.promptContinue
  else
    true

/-- `_CheckEnvironment`: requires the Gemfile, probes bundler availability,
checks bundle freshness, and returns the availability flag together with
the `log.status.Print` messages it emitted. -/
def _CheckEnvironment (env : Env) : Except RubyError (Bool × List String) :=
  if !(hasFile env "Gemfile") then
    .error .missingGemfile
  else
    let gemfile_lock_present := hasFile env "Gemfile.lock"
    let bundler_available := env.bundleVersionOk
    if bundler_available then
      if !env.bundleCheckOk then
        .error .staleBundle
      else if !gemfile_lock_present then
        .ok (true, [GEMFILE_LOCK_NOTICE])
      else
        .ok (true, [])
    else
      .ok (false, [BUNDLER_UNAVAILABLE_NOTICE])

/-- Python `\s` character class (`[ \t\n\r\f\v]`). -/
def isPySpace (c : Char) : Bool :=
  c = ' ' || c = '\t' || c = '\n' || c = '\r' || c = '\x0b' || c = '\x0c'

/-- Boolean list-prefix test (first argument is the candidate lead). -/
def leadsWith : List Char → List Char → Bool
  | [], _ => true
  | _ :: _, [] => false
  | p :: ps, c :: cs => p == c && leadsWith ps cs

/-- `s.startswith(p)` over the character lists. -/
def strLeadsWith (s p : String) : Bool :=
  leadsWith p.toList s.toList

/-- Python `str.strip()`: drop `\s` characters from both ends. -/
def pyStrip (s : String) : String :=
  String.mk (((s.toList.dropWhile isPySpace).reverse.dropWhile isPySpace).reverse)

/-- Maximal leading run of ASCII digits, with the remainder (the greedy
behaviour of `\d+`). -/
def takeDigits : List Char → List Char × List Char
  | [] => ([], [])
  | c :: rest =>
    if c.isDigit then
      let (ds, r) := takeDigits rest
      (c :: ds, r)
    else
      ([], c :: rest)

/-- `re.match(r'^ruby (\d+\.\d+(\.\d+)?)', ruby_info)`, returning group 1. -/
def matchRubyVersion (s : String) : Option String :=
  if strLeadsWith s "ruby " then
    match takeDigits (s.toList.drop 5) with
    | ([], _) => none
    | (d1, r1) =>
      match r1 with
      | '.' :: r2 =>
        (match takeDigits r2 with
         | ([], _) => none
         | (d2, r3) =>
           let base := d1 ++ '.' :: d2
           match r3 with
           | '.' :: r4 =>
             (match takeDigits r4 with
              | ([], _) => some (String.mk base)
              | (d3, _) => some (String.mk (base ++ '.' :: d3)))
           | _ => some (String.mk base))
      | _ => none
  else
    none

/-- `re.match(r'\s*\*\s+(\S+)\s+\(', line)`, returning group 1 (the gem
name printed by `bundle list`). -/
def matchGemLine (line : String) : Option String :=
  match line.toList.dropWhile isPySpace with
  | '*' :: r1 =>
    (match r1 with
     | c1 :: _ =>
       if isPySpace c1 then
         let r2 := r1.dropWhile isPySpace
         let name := r2.takeWhile (fun c => !(isPySpace c))
         let r3 := r2.dropWhile (fun c => !(isPySpace c))
         if name.isEmpty then
           none
         else
           match r3 with
           | c2 :: _ =>
             if isPySpace c2 then
               match r3.dropWhile isPySpace with
               | '(' :: _ => some (String.mk name)
               | _ => none
             else
               none
           | [] => none
       else
         none
     | [] => none)
  | _ => none

/-- `_DetectGems`: parse `bundle list` output when bundler is available;
`bundle list` failing is a fatal `_RunSubprocess` error. -/
def _DetectGems (env : Env) (bundler_available : Bool) : Except RubyError (List String) :=
  if bundler_available then
    if !env.bundleListOk then
      .error (.subprocessFailed "bundle list")
    else
      .ok (env.bundleListOut.foldl
        (fun gems line =>
          match matchGemLine line with
          | some g => gems ++ [g]
          | none => gems) [])
  else
    .ok []

/-- `_ReadFile(path, '.ruby-version')` followed by the Python truthiness
test and `.strip()`: missing or empty file yields `none`. -/
def rubyVersionFileFallback (env : Env) : Option String :=
  match env.files.lookup ".ruby-version" with
  | some contents => if contents ≠ "" then some (pyStrip contents) else none
  | none => none

/-- `_DetectRubyInterpreter`: parse `bundle platform --ruby` when bundler is
available, normalizing a matched version through `RUBY_VERSION_MAP`;
otherwise fall back to the `.ruby-version` file (no normalization there);
otherwise `none` (use the base image default). -/
def _DetectRubyInterpreter (env : Env) (bundler_available : Bool) :
    Except RubyError (Option String) :=
  if bundler_available then
    if !env.bundlePlatformOk then
      .error (.subprocessFailed "bundle platform --ruby")
    else if !(strLeadsWith env.bundlePlatformOut "No ") then
      match matchRubyVersion env.bundlePlatformOut with
      | some v => .ok (some (rubyVersionMapGet v))
      | none => .ok (rubyVersionFileFallback env)
    else
      .ok (rubyVersionFileFallback env)
  else
    .ok (rubyVersionFileFallback env)

/-- `_DetectDefaultEntrypoint`: fixed priority order Procfile, puma,
unicorn, config.ru, else empty. -/
def _DetectDefaultEntrypoint (env : Env) (gems : List String) : String :=
  if hasFile env "Procfile" then
    ENTRYPOINT_FOREMAN
  else if gems.contains "puma" then
    ENTRYPOINT_PUMA
  else if gems.contains "unicorn" then
    ENTRYPOINT_UNICORN
  else if hasFile env "config.ru" then
    ENTRYPOINT_RACKUP
  else
    ""

/-- `_ChooseEntrypoint`: prompt when interactive (empty response accepts the
default, empty response with no default is fatal); raise when
non-interactive. -/
def _ChooseEntrypoint (env : Env) (default_entrypoint : String)
    (appinfo : Option AppInfo) : Except RubyError String :=
  if env.canPrompt then
    let entrypoint := pyStrip env.promptResponse
    if entrypoint = "" then
      if default_entrypoint = "" then
        .error .entrypointRequired
      else
        .ok default_entrypoint
    else
      .ok entrypoint
  else
    .error .nonInteractive

/-- Python set `add`: append only when absent. -/
def setAdd (s : List String) (p : String) : List String :=
  if p ∈ s then s else s ++ [p]

/-- Lexicographic code-point comparison of character lists (the order used
by Python `sorted` on strings). -/
def charListLe : List Char → List Char → Bool
  | [], _ => true
  | _ :: _, [] => false
  | a :: as, b :: bs =>
    if a < b then true
    else if b < a then false
    else charListLe as bs

/-- Python string comparison, over the character lists. -/
def strSortLe (a b : String) : Bool :=
  charListLe a.toList b.toList

/-- One iteration of the `_DetectNeededPackages` loop: add the packages of
a gem to the set when the gem is in `GEM_PACKAGES`. -/
def gemStep (s : List String) (g : String) : List String :=
  match GEM_PACKAGES.lookup g with
  | some ps => ps.foldl setAdd s
  | none => s

/-- `_DetectNeededPackages`: union the `GEM_PACKAGES` entries of the given
gems into a set, then sort. -/
def _DetectNeededPackages (gems : List String) : List String :=
  let package_set := gems.foldl gemStep []
  List.insertionSort (fun a b => strSortLe a b = true) package_set

/-- Truthiness of `appinfo and appinfo.entrypoint` in Python. -/
def appinfoEntrypoint : Option AppInfo → String
  | some ai => ai.entrypoint
  | none => ""

/-- The entrypoint-resolution block of `Fingerprint` (lines 287-291): use a
non-empty configured entrypoint verbatim, otherwise infer a default and
consult `_ChooseEntrypoint`. -/
def _ResolveEntrypoint (env : Env) (appinfo : Option AppInfo)
    (gems : List String) : Except RubyError String :=
  if appinfoEntrypoint appinfo ≠ "" then
    .ok (appinfoEntrypoint appinfo)
  else
    _ChooseEntrypoint env (_DetectDefaultEntrypoint env gems) appinfo

/-- The resolved runtime decision (`RubyConfigurator` constructor state). -/
structure RubyConfigurator where
  params : Params
  ruby_version : Option String
  entrypoint : String
  packages : List String
deriving DecidableEq, Repr

/-- `Fingerprint`: the full probe-and-decide pipeline.  Returns `none` when
the tree is not recognized as a Ruby app, a configurator on success, and
an error on any fatal condition. -/
def Fingerprint (env : Env) (params : Params) :
    Except RubyError (Option RubyConfigurator) :=
  if !(_CheckForRubyRuntime env params.appinfo) then
    .ok none
  else
    match _CheckEnvironment env with
    | .error e => .error e
    | .ok (bundler_available, _) =>
      match _DetectGems env bundler_available with
      | .error e => .error e
      | .ok gems =>
        match _DetectRubyInterpreter env bundler_available with
        | .error e => .error e
        | .ok ruby_version =>
          let packages := _DetectNeededPackages gems
          match _ResolveEntrypoint env params.appinfo gems with
          | .error e => .error e
          | .ok entrypoint =>
            .ok (some { params := params, ruby_version := ruby_version,
                        entrypoint := entrypoint, packages := packages })

/-- `APP_YAML_CONTENTS.format(runtime=..., entrypoint=...)`. -/
def APP_YAML_CONTENTS (runtime entrypoint : String) : String :=
  "env: flex\nruntime: " ++ runtime ++ "\nentrypoint: " ++ entrypoint ++ "\n"

def DOCKERIGNORE_CONTENTS : String :=
  ".dockerignore\nDockerfile\n.git\n.hg\n.svn\n"

def DOCKERFILE_HEADER : String :=
  "# This Dockerfile for a Ruby application was generated by gcloud.\n\n# The base Dockerfile installs:\n# * A number of packages needed by the Ruby runtime and by gems\n#   commonly used in Ruby web apps (such as libsqlite3)\n# * A recent version of NodeJS\n# * A recent version of the standard Ruby runtime to use by default\n# * The bundler and foreman gems\nFROM gcr.io/google_appengine/ruby\n"

def DOCKERFILE_DEFAULT_INTERPRETER : String :=
  "# This Dockerfile uses the default Ruby interpreter installed and\n# specified by the base image.\n# If you want to use a specific ruby interpreter, provide a\n# .ruby-version file, then delete this Dockerfile and re-run\n# \"gcloud app gen-config --custom\" to recreate it.\n"

/-- `DOCKERFILE_CUSTOM_INTERPRETER` after both `.format` applications
(bundler/foreman versions baked in, ruby version substituted). -/
def DOCKERFILE_CUSTOM_INTERPRETER (v : String) : String :=
  "# Install ruby " ++ v ++ " if not already preinstalled by the base image\nRUN cd /rbenv/plugins/ruby-build && \\\n    git pull && \\\n    rbenv install -s " ++ v ++ " && \\\n    rbenv global " ++ v ++ " && \\\n    gem install -q --no-rdoc --no-ri bundler --version " ++ BUNDLER_VERSION ++ " && \\\n    gem install -q --no-rdoc --no-ri foreman --version " ++ FOREMAN_VERSION ++ "\nENV RBENV_VERSION " ++ v ++ "\n"

/-- `DOCKERFILE_MORE_PACKAGES.format(' '.join(packages))`. -/
def DOCKERFILE_MORE_PACKAGES (pkgs : String) : String :=
  "# Install additional package dependencies needed by installed gems.\n# Feel free to add any more needed by your gems.\nRUN apt-get update -y && \\\n    apt-get install -y -q --no-install-recommends \\\n        " ++ pkgs ++ " \\\n    && apt-get clean && rm /var/lib/apt/lists/*_*\n"

def DOCKERFILE_NO_MORE_PACKAGES : String :=
  "# To install additional packages needed by your gems, uncomment\n# the \"RUN apt-get update\" and \"RUN apt-get install\" lines below\n# and specify your packages.\n# RUN apt-get update\n# RUN apt-get install -y -q (your packages here)\n"

def DOCKERFILE_GEM_INSTALL : String :=
  "# Install required gems.\nCOPY Gemfile Gemfile.lock /app/\nRUN bundle install --deployment && rbenv rehash\n"

/-- `DOCKERFILE_ENTRYPOINT.format(entrypoint)`. -/
def DOCKERFILE_ENTRYPOINT (e : String) : String :=
  "# Start application on port 8080.\nCOPY . /app/\nENTRYPOINT " ++ e ++ "\n"

/-- Modelled from the spec: the container build file name
(`config.DOCKERFILE` comes from the images config module, which is not in
this tree; the generated ignore file lists it as `Dockerfile`). -/
def DOCKERFILE : String := "Dockerfile"

/-- `ext_runtime.GeneratedFile`: one output file to write. -/
structure GeneratedFile where
  filename : String
  contents : String
deriving DecidableEq, Repr

/-- The tree under the root, as filename-to-contents associations. -/
abbrev FS := List (String × String)

/-- Modelled from the spec: `GeneratedFile.WriteTo` lives in
`gae_ext_runtime.ext_runtime`, which is not in this tree.  Per the spec
(`WriteArtifact`): writes only if absent at `root/artifact.filename`;
returns whether a write occurred. -/
def GeneratedFile.WriteTo (f : GeneratedFile) (fs : FS) : FS × Bool :=
  match fs.lookup f.filename with
  | some _ => (fs, false)
  | none => (fs ++ [(f.filename, f.contents)], true)

/-- `RubyConfigurator._GenerateAppYaml`. -/
def RubyConfigurator._GenerateAppYaml (cfg : RubyConfigurator) : GeneratedFile :=
  let runtime := if cfg.params.custom then "custom" else "ruby"
  { filename := "app.yaml",
    contents := APP_YAML_CONTENTS runtime cfg.entrypoint }

/-- `RubyConfigurator._GenerateDockerfile` (Python truthiness on
`ruby_version` and `packages`). -/
def RubyConfigurator._GenerateDockerfile (cfg : RubyConfigurator) : GeneratedFile :=
  let interp :=
    match cfg.ruby_version with
    | some v =>
      if v ≠ "" then DOCKERFILE_CUSTOM_INTERPRETER v
      else DOCKERFILE_DEFAULT_INTERPRETER
    | none => DOCKERFILE_DEFAULT_INTERPRETER
  let pkgs :=
    if cfg.packages ≠ [] then
      DOCKERFILE_MORE_PACKAGES (String.intercalate " " cfg.packages)
    else
      DOCKERFILE_NO_MORE_PACKAGES
  let dockerfile_content :=
    [DOCKERFILE_HEADER, interp, pkgs, DOCKERFILE_GEM_INSTALL,
     DOCKERFILE_ENTRYPOINT cfg.entrypoint]
  { filename := DOCKERFILE,
    contents := String.intercalate "\n" dockerfile_content }

/-- `RubyConfigurator._GenerateDockerignore`. -/
def RubyConfigurator._GenerateDockerignore (cfg : RubyConfigurator) : GeneratedFile :=
  { filename := ".dockerignore", contents := DOCKERIGNORE_CONTENTS }

/-- Sequential `WriteTo` of each file, collecting the `created` flags in
order (the list comprehension in `GenerateConfigs`). -/
def writeAll (files : List GeneratedFile) (fs : FS) : FS × List Bool :=
  files.foldl
    (fun acc f =>
      let r := f.WriteTo acc.1
      (r.1, acc.2 ++ [r.2]))
    (fs, [])

def ALL_EXIST_MESSAGE : String :=
  "All config files already exist. No files generated."

/-- `RubyConfigurator.GenerateConfigs`: returns the new tree, whether any
file was written, and the `notify` messages this method itself emits. -/
def RubyConfigurator.GenerateConfigs (cfg : RubyConfigurator) (fs : FS) :
    FS × Bool × List String :=
  let all_config_files :=
    (if cfg.params.appinfo.isNone then [cfg._GenerateAppYaml] else []) ++
    (if cfg.params.custom || cfg.params.deploy then
       [cfg._GenerateDockerfile, cfg._GenerateDockerignore]
     else [])
  let res := writeAll all_config_files fs
  if res.2.any id then
    (res.1, true, [])
  else
    (res.1, false, [ALL_EXIST_MESSAGE])

/-- `RubyConfigurator.GenerateConfigData`: writes app.yaml (guarded) when no
appinfo, then returns the docker files that do not yet exist on disk. -/
def RubyConfigurator.GenerateConfigData (cfg : RubyConfigurator) (fs : FS) :
    FS × List GeneratedFile :=
  let fs1 :=
    if cfg.params.appinfo.isNone then (cfg._GenerateAppYaml.WriteTo fs).1
    else fs
  let all_config_files :=
    if cfg.params.custom || cfg.params.deploy then
      [cfg._GenerateDockerfile, cfg._GenerateDockerignore]
    else []
  (fs1, all_config_files.filter (fun f => (fs1.lookup f.filename).isNone))

/-- Split a character list at newline characters (each `\n` terminates a
line; a trailing `\n` yields a final empty line). -/
def splitLinesCh : List Char → List (List Char)
  | [] => [[]]
  | c :: rest =>
    if c = '\n' then
      [] :: splitLinesCh rest
    else
      match splitLinesCh rest with
      | [] => [[c]]
      | l :: ls => (c :: l) :: ls

/-- First line led by the given key, with the key dropped. -/
def findKeyLine (key : List Char) : List (List Char) → Option (List Char)
  | [] => none
  | l :: ls =>
    if leadsWith key l then some (l.drop key.length)
    else findKeyLine key ls

/-- Modelled from the spec: a parser of the generated declarative config
("two or three key-value lines (env, runtime, entrypoint)"); the SDK-side
app.yaml parser is not part of this tree.  Recovers the values of the
first `runtime: ` and `entrypoint: ` lines. -/
def ParseAppYaml (s : String) : Option (String × String) :=
  let lines := splitLinesCh s.toList
  match findKeyLine "runtime: ".toList lines,
        findKeyLine "entrypoint: ".toList lines with
  | some r, some e => some (String.mk r, String.mk e)
  | _, _ => none

/-- Spec-side restatement of the default-entrypoint priority order (spec
section 4.2 step 2), phrased over the two file-presence facts and the
dependency list. -/
def defaultEntrypointSpec (procfilePresent : Bool) (gems : List String)
    (configRuPresent : Bool) : String :=
  if procfilePresent then ENTRYPOINT_FOREMAN
  else if gems.contains "puma" then ENTRYPOINT_PUMA
  else if gems.contains "unicorn" then ENTRYPOINT_UNICORN
  else if configRuPresent then ENTRYPOINT_RACKUP
  else ""

/-! Concrete fixtures used by witnesses and counterexamples. -/

def sampleGemfileFiles : FS := [("Gemfile", "source rubygems")]

def envNonInteractive : Env :=
  { files := sampleGemfileFiles, canPrompt := false, promptContinue := true,
    promptResponse := "", bundleVersionOk := false, bundleCheckOk := false,
    bundleListOk := true, bundleListOut := [], bundlePlatformOk := true,
    bundlePlatformOut := "" }

def envNoBundler : Env :=
  { envNonInteractive with canPrompt := true }

def envPlatformProbe : Env :=
  { envNonInteractive with
      bundleVersionOk := true
      bundleCheckOk := true
      bundlePlatformOut := "ruby 2.0.0p645" }

def envRubyVersionFile : Env :=
  { envNonInteractive with
    files := sampleGemfileFiles ++ [(".ruby-version", "2.0.0\n")] }

def envRubyVersionFile231 : Env :=
  { envNonInteractive with
    files := sampleGemfileFiles ++ [(".ruby-version", "2.3.1\n")] }

def aiRun : AppInfo := { runtime := "ruby", entrypoint := "bundle exec rails s" }

def paramsRun : Params := { appinfo := some aiRun, custom := false, deploy := false }

def cfgRun : RubyConfigurator :=
  { params := paramsRun, ruby_version := none,
    entrypoint := "bundle exec rails s", packages := [] }

/-! Theorems. -/

/-- Claim C1 (amended): when interactive prompting is unavailable,
entrypoint resolution always raises the non-interactive error, regardless
of whether a non-empty default entrypoint was computed; a computed default
is only consumed through the interactive path. -/
theorem C1_nonInteractive_always_raises (env : Env) (d : String)
    (ai : Option AppInfo) (h : env.canPrompt = false) :
    _ChooseEntrypoint env d ai = .error .nonInteractive := by
  simp [_ChooseEntrypoint, h]

/-- Claim C1, witness for the amended theorem at a concrete input. -/
theorem C1_witness :
    envNonInteractive.canPrompt = false ∧
    _ChooseEntrypoint envNonInteractive "" none = .error .nonInteractive :=
  ⟨rfl, C1_nonInteractive_always_raises envNonInteractive "" none rfl⟩

/-- Claim C1, counterexample to the claim as stated: with prompting
unavailable and the non-empty Foreman default computed, resolution raises
the non-interactive error instead of returning that default. -/
theorem C1_counterexample :
    envNonInteractive.canPrompt = false ∧ ENTRYPOINT_FOREMAN ≠ "" ∧
    _ChooseEntrypoint envNonInteractive ENTRYPOINT_FOREMAN none
      = .error .nonInteractive := by
  refine ⟨rfl, by decide, rfl⟩

/-- Claim C2 (amended): the version obtained from the `bundle platform`
probe is always normalized through `RUBY_VERSION_MAP` (a version in the
table is replaced by its patch-level string, one absent passes through
unchanged, and the lookup is a pure function), but the `.ruby-version`
fallback embeds the trimmed file contents verbatim, without
normalization. -/
theorem C2_version_normalization :
    (∀ env v, env.bundlePlatformOk = true →
      strLeadsWith env.bundlePlatformOut "No " = false →
      matchRubyVersion env.bundlePlatformOut = some v →
      _DetectRubyInterpreter env true = .ok (some (rubyVersionMapGet v))) ∧
    (∀ v w, RUBY_VERSION_MAP.lookup v = some w → rubyVersionMapGet v = w) ∧
    (∀ v, RUBY_VERSION_MAP.lookup v = none → rubyVersionMapGet v = v) ∧
    (∀ env c, env.files.lookup ".ruby-version" = some c → c ≠ "" →
      _DetectRubyInterpreter env false = .ok (some (pyStrip c))) := by
  refine ⟨?_, ?_, ?_, ?_⟩
  · intro env v h1 h2 h3
    simp [_DetectRubyInterpreter, h1, h2, h3]
  · intro v w h
    simp [rubyVersionMapGet, h]
  · intro v h
    simp [rubyVersionMapGet, h]
  · intro env c h hne
    simp [_DetectRubyInterpreter, rubyVersionFileFallback, h, hne]

/-- Claim C2, witness: the platform probe output `ruby 2.0.0p645` is
normalized to `2.0.0-p648`, and a `.ruby-version` file containing
`2.3.1` (absent from the table) yields `2.3.1`. -/
theorem C2_witness :
    _DetectRubyInterpreter envPlatformProbe true = .ok (some "2.0.0-p648") ∧
    _DetectRubyInterpreter envRubyVersionFile231 false = .ok (some "2.3.1") := by
  constructor
  · have h := C2_version_normalization.1 envPlatformProbe "2.0.0" rfl (by decide)
      (by decide)
    have hv : rubyVersionMapGet "2.0.0" = "2.0.0-p648" := rfl
    rw [hv] at h
    exact h
  · have h := C2_version_normalization.2.2.2 envRubyVersionFile231 "2.3.1\n"
      rfl (by decide)
    have hv : pyStrip "2.3.1\n" = "2.3.1" := rfl
    rw [hv] at h
    exact h

/-- Claim C2, counterexample to the claim as stated: the `.ruby-version`
fallback produces `2.0.0`, a version present in the table whose mapped
patch-level string is `2.0.0-p648`, yet the result is not replaced. -/
theorem C2_counterexample :
    _DetectRubyInterpreter envRubyVersionFile false = .ok (some "2.0.0") ∧
    RUBY_VERSION_MAP.lookup "2.0.0" = some "2.0.0-p648" ∧
    ("2.0.0" : String) ≠ "2.0.0-p648" := by
  refine ⟨rfl, rfl, by decide⟩

/-- Claim C5: the default entrypoint follows the fixed priority order
(Procfile, then puma, then unicorn, then config.ru, else empty), stated as
agreement with the spec-side priority function; in particular a dependency
list containing puma with no Procfile yields the Puma production launch
command. -/
theorem C5_default_entrypoint (env : Env) (gems : List String) :
    _DetectDefaultEntrypoint env gems
      = defaultEntrypointSpec (hasFile env "Procfile") gems
          (hasFile env "config.ru") ∧
    (hasFile env "Procfile" = false → gems.contains "puma" = true →
      _DetectDefaultEntrypoint env gems = ENTRYPOINT_PUMA) := by
  constructor
  · rfl
  · intro h1 h2
    have h2m : "puma" ∈ gems := by simpa using h2
    simp [_DetectDefaultEntrypoint, h1, h2m]

/-- Claim C5, witness: puma in the dependency list, no Procfile. -/
theorem C5_witness :
    _DetectDefaultEntrypoint envNoBundler ["puma"] = ENTRYPOINT_PUMA :=
  (C5_default_entrypoint envNoBundler ["puma"]).2 (by decide) (by decide)

/-- Claim C10: with a pre-existing appinfo and neither the custom flag nor
deploy mode set, GenerateConfigs has no candidate artifacts: the tree is
unchanged, it returns false, and it still notifies that all config files
already exist. -/
theorem C10_generate_configs_noop (cfg : RubyConfigurator) (fs : FS)
    (ai : AppInfo) (h1 : cfg.params.appinfo = some ai)
    (h2 : cfg.params.custom = false) (h3 : cfg.params.deploy = false) :
    cfg.GenerateConfigs fs = (fs, false, [ALL_EXIST_MESSAGE]) := by
  simp [RubyConfigurator.GenerateConfigs, h1, h2, h3, writeAll]

/-- Claim C10, witness at a concrete configurator and empty tree. -/
theorem C10_witness :
    cfgRun.GenerateConfigs [] = ([], false, [ALL_EXIST_MESSAGE]) :=
  C10_generate_configs_noop cfgRun [] aiRun rfl rfl rfl

/-- Claim C6: the environment check raises the missing-manifest error
exactly when the Gemfile is absent, raises the stale-lock error exactly
when the Gemfile is present, bundler runs, and `bundle check` fails; and
when bundler is unavailable (Gemfile present) it never raises: it returns
`available = false` with the degradation warning emitted, and dependency
detection then returns the empty list. -/
theorem C6_check_environment (env : Env) :
    (_CheckEnvironment env = .error .missingGemfile ↔
      hasFile env "Gemfile" = false) ∧
    (_CheckEnvironment env = .error .staleBundle ↔
      (hasFile env "Gemfile" = true ∧ env.bundleVersionOk = true ∧
       env.bundleCheckOk = false)) ∧
    (hasFile env "Gemfile" = true → env.bundleVersionOk = false →
      _CheckEnvironment env = .ok (false, [BUNDLER_UNAVAILABLE_NOTICE]) ∧
      _DetectGems env false = .ok []) := by
  cases hG : hasFile env "Gemfile" <;>
    cases hV : env.bundleVersionOk <;>
      cases hC : env.bundleCheckOk <;>
        cases hL : hasFile env "Gemfile.lock" <;>
          simp [_CheckEnvironment, _DetectGems, hG, hV, hC, hL]

/-- Claim C6, witness: Gemfile present, bundler unavailable. -/
theorem C6_witness :
    _CheckEnvironment envNoBundler = .ok (false, [BUNDLER_UNAVAILABLE_NOTICE]) ∧
    _DetectGems envNoBundler false = .ok [] :=
  (C6_check_environment envNoBundler).2.2 rfl rfl

theorem lookup_append_left {l₁ l₂ : FS} {k v : String}
    (h : l₁.lookup k = some v) : (l₁ ++ l₂).lookup k = some v := by
  induction l₁ with
  | nil => simp [List.lookup] at h
  | cons p l ih =>
    obtain ⟨a, b⟩ := p
    rw [List.cons_append]
    cases hk : (k == a)
    · simp only [List.lookup, hk] at h ⊢
      exact ih h
    · simp only [List.lookup, hk] at h ⊢
      exact h

theorem lookup_append_of_none {l₁ l₂ : FS} {k : String}
    (h : l₁.lookup k = none) : (l₁ ++ l₂).lookup k = l₂.lookup k := by
  induction l₁ with
  | nil => simp
  | cons p l ih =>
    obtain ⟨a, b⟩ := p
    rw [List.cons_append]
    cases hk : (k == a)
    · simp only [List.lookup, hk] at h ⊢
      exact ih h
    · simp [List.lookup, hk] at h

/-- Claim C8: a write occurs exactly when no file of that name exists under
the root; writing the same filename twice writes at most once, the second
call being a no-op that reports no write occurred; and the content of any
existing file is never changed by a write. -/
theorem C8_write_guard (f g : GeneratedFile) (fs : FS)
    (hname : g.filename = f.filename) :
    ((f.WriteTo fs).2 = true ↔ fs.lookup f.filename = none) ∧
    g.WriteTo (f.WriteTo fs).1 = ((f.WriteTo fs).1, false) ∧
    (∀ n c, fs.lookup n = some c → ((f.WriteTo fs).1).lookup n = some c) := by
  unfold GeneratedFile.WriteTo
  cases h : fs.lookup f.filename with
  | some v =>
    refine ⟨by simp [h], ?_, ?_⟩
    · rw [hname]
      simp [h]
    · intro n c hc
      simpa using hc
  | none =>
    refine ⟨by simp, ?_, ?_⟩
    · rw [hname]
      rw [lookup_append_of_none h]
      simp
    · intro n c hc
      simp only
      exact lookup_append_left hc

/-- Claim C8, witness at a concrete artifact and empty tree. -/
theorem C8_witness :
    (GeneratedFile.WriteTo ⟨"app.yaml", "hello"⟩ []).2 = true ∧
    GeneratedFile.WriteTo ⟨"app.yaml", "bye"⟩
        (GeneratedFile.WriteTo ⟨"app.yaml", "hello"⟩ []).1
      = ((GeneratedFile.WriteTo ⟨"app.yaml", "hello"⟩ []).1, false) := by
  have h := C8_write_guard ⟨"app.yaml", "hello"⟩ ⟨"app.yaml", "bye"⟩ [] rfl
  exact ⟨h.1.mpr rfl, h.2.1⟩

/-- Every successful `_ChooseEntrypoint` result is a non-empty string. -/
theorem chooseEntrypoint_ok_ne_empty {env : Env} {d : String}
    {ai : Option AppInfo} {e : String}
    (h : _ChooseEntrypoint env d ai = .ok e) : e ≠ "" := by
  unfold _ChooseEntrypoint at h
  cases hP : env.canPrompt <;> rw [hP] at h
  · simp at h
  · simp only [if_true] at h
    by_cases hT : pyStrip env.promptResponse = ""
    · rw [if_pos hT] at h
      by_cases hD : d = ""
      · rw [if_pos hD] at h
        simp at h
      · rw [if_neg hD] at h
        injection h with h1
        rw [← h1]
        exact hD
    · rw [if_neg hT] at h
      injection h with h1
      rw [← h1]
      exact hT

/-- Every successful `_ResolveEntrypoint` result is a non-empty string. -/
theorem resolveEntrypoint_ok_ne_empty {env : Env} {ai : Option AppInfo}
    {gems : List String} {e : String}
    (h : _ResolveEntrypoint env ai gems = .ok e) : e ≠ "" := by
  unfold _ResolveEntrypoint at h
  by_cases ha : appinfoEntrypoint ai ≠ ""
  · rw [if_pos ha] at h
    injection h with h1
    rw [← h1]
    exact ha
  · rw [if_neg ha] at h
    exact chooseEntrypoint_ok_ne_empty h

/-- A successful `Fingerprint` pins the configurator entrypoint to a
successful `_ResolveEntrypoint` run on the detected gems. -/
theorem fingerprint_ok_resolve (env : Env) (params : Params)
    (cfg : RubyConfigurator) (h : Fingerprint env params = .ok (some cfg)) :
    ∃ gems, _ResolveEntrypoint env params.appinfo gems = .ok cfg.entrypoint := by
  unfold Fingerprint at h
  split at h
  · exact absurd h (by simp)
  · split at h
    · exact absurd h (by simp)
    · split at h
      · exact absurd h (by simp)
      · split at h
        · exact absurd h (by simp)
        · split at h
          · exact absurd h (by simp)
          · rename_i x1 ba logs hE x2 gems hG x3 rv hI x4 ep hRE
            injection h with h1
            injection h1 with h2
            rw [← h2]
            exact ⟨gems, hRE⟩

/-- Claim C4: a pre-existing appinfo with a non-empty entrypoint is used
verbatim — the resolution step returns exactly that value for every
environment and dependency list (so neither the default-entrypoint
inference nor the prompt response can influence it), and any configurator
produced by `Fingerprint` carries exactly that entrypoint. -/
theorem C4_configured_entrypoint (env : Env) (params : Params) (ai : AppInfo)
    (h : params.appinfo = some ai) (hne : ai.entrypoint ≠ "") :
    (∀ env2 gems, _ResolveEntrypoint env2 (some ai) gems = .ok ai.entrypoint) ∧
    (∀ cfg, Fingerprint env params = .ok (some cfg) →
      cfg.entrypoint = ai.entrypoint) := by
  have hres : ∀ env2 gems,
      _ResolveEntrypoint env2 (some ai) gems = .ok ai.entrypoint := by
    intro env2 gems
    simp [_ResolveEntrypoint, appinfoEntrypoint, hne]
  refine ⟨hres, ?_⟩
  intro cfg hF
  obtain ⟨gems, hre⟩ := fingerprint_ok_resolve env params cfg hF
  rw [h, hres env gems] at hre
  injection hre with h1
  exact h1.symm

/-- Claim C4, witness: the configured entrypoint survives a full
`Fingerprint` run unchanged. -/
theorem C4_witness :
    Fingerprint envNonInteractive paramsRun = .ok (some cfgRun) ∧
    cfgRun.entrypoint = aiRun.entrypoint :=
  ⟨rfl, (C4_configured_entrypoint envNonInteractive paramsRun aiRun rfl
    (by decide)).2 cfgRun rfl⟩

/-- Claim C7: every configurator successfully produced by `Fingerprint`
has a non-empty entrypoint; every path that would otherwise produce an
empty one raises a fatal error instead. -/
theorem C7_entrypoint_nonempty (env : Env) (params : Params)
    (cfg : RubyConfigurator) (h : Fingerprint env params = .ok (some cfg)) :
    cfg.entrypoint ≠ "" := by
  obtain ⟨gems, hre⟩ := fingerprint_ok_resolve env params cfg h
  exact resolveEntrypoint_ok_ne_empty hre

/-- Claim C7, witness at a concrete successful pipeline run. -/
theorem C7_witness : cfgRun.entrypoint ≠ "" :=
  C7_entrypoint_nonempty envNonInteractive paramsRun cfgRun rfl

theorem charListLe_total : ∀ as bs,
    charListLe as bs = true ∨ charListLe bs as = true := by
  intro as
  induction as with
  | nil => intro bs; exact Or.inl rfl
  | cons a as ih =>
    intro bs
    cases bs with
    | nil => exact Or.inr rfl
    | cons b bs =>
      by_cases h1 : a < b
      · left
        simp [charListLe, h1]
      · by_cases h2 : b < a
        · right
          simp [charListLe, h2]
        · cases ih bs with
          | inl h => left; simp [charListLe, h1, h2, h]
          | inr h => right; simp [charListLe, h1, h2, h]

theorem charListLe_trans : ∀ as bs cs, charListLe as bs = true →
    charListLe bs cs = true → charListLe as cs = true := by
  intro as
  induction as with
  | nil => intro bs cs _ _; rfl
  | cons a as ih =>
    intro bs cs h1 h2
    cases bs with
    | nil => simp [charListLe] at h1
    | cons b bs =>
      cases cs with
      | nil => simp [charListLe] at h2
      | cons c cs =>
        by_cases hab : a < b
        · by_cases hbc : b < c
          · simp [charListLe, lt_trans hab hbc]
          · by_cases hcb : c < b
            · simp [charListLe, hbc, hcb] at h2
            · have hbc' : b = c := le_antisymm (not_lt.mp hcb) (not_lt.mp hbc)
              subst hbc'
              simp [charListLe, hab]
        · by_cases hba : b < a
          · simp [charListLe, hab, hba] at h1
          · have hab' : a = b := le_antisymm (not_lt.mp hba) (not_lt.mp hab)
            subst hab'
            simp only [charListLe, if_neg (lt_irrefl a)] at h1
            by_cases hac : a < c
            · simp [charListLe, hac]
            · by_cases hca : c < a
              · simp [charListLe, hac, hca] at h2
              · have hac' : a = c := le_antisymm (not_lt.mp hca) (not_lt.mp hac)
                subst hac'
                simp only [charListLe, if_neg (lt_irrefl a)] at h2 ⊢
                exact ih bs cs h1 h2

theorem charListLe_antisymm : ∀ as bs, charListLe as bs = true →
    charListLe bs as = true → as = bs := by
  intro as
  induction as with
  | nil =>
    intro bs _ h2
    cases bs with
    | nil => rfl
    | cons b bs => simp [charListLe] at h2
  | cons a as ih =>
    intro bs h1 h2
    cases bs with
    | nil => simp [charListLe] at h1
    | cons b bs =>
      by_cases hab : a < b
      · simp [charListLe, hab, lt_asymm hab] at h2
      · by_cases hba : b < a
        · simp [charListLe, hab, hba] at h1
        · have hab' : a = b := le_antisymm (not_lt.mp hba) (not_lt.mp hab)
          subst hab'
          simp only [charListLe, if_neg (lt_irrefl a)] at h1 h2
          rw [ih bs h1 h2]

theorem strSortLe_antisymm_str {a b : String} (h1 : strSortLe a b = true)
    (h2 : strSortLe b a = true) : a = b := by
  have h := charListLe_antisymm a.toList b.toList h1 h2
  have h2' : String.mk a.toList = String.mk b.toList := by rw [h]
  exact h2'

instance : IsTotal String (fun a b => strSortLe a b = true) :=
  ⟨fun a b => charListLe_total a.toList b.toList⟩

instance : IsTrans String (fun a b => strSortLe a b = true) :=
  ⟨fun a b c => charListLe_trans a.toList b.toList c.toList⟩

instance : IsAntisymm String (fun a b => strSortLe a b = true) :=
  ⟨fun a b h1 h2 => strSortLe_antisymm_str h1 h2⟩

theorem mem_setAdd {s : List String} {p x : String} :
    x ∈ setAdd s p ↔ x = p ∨ x ∈ s := by
  unfold setAdd
  split
  · rename_i h
    constructor
    · exact fun hx => Or.inr hx
    · rintro (rfl | hx)
      · exact h
      · exact hx
  · simp [or_comm]

theorem nodup_setAdd {s : List String} (p : String) (h : s.Nodup) :
    (setAdd s p).Nodup := by
  unfold setAdd
  split
  · exact h
  · rename_i hp
    simp [List.nodup_append, h, hp]

theorem mem_foldl_setAdd (ps : List String) (s : List String) (x : String) :
    x ∈ ps.foldl setAdd s ↔ x ∈ s ∨ x ∈ ps := by
  induction ps generalizing s with
  | nil => simp
  | cons p ps ih =>
    rw [List.foldl_cons, ih, mem_setAdd]
    simp only [List.mem_cons]
    tauto

theorem nodup_foldl_setAdd (ps : List String) (s : List String) (h : s.Nodup) :
    (ps.foldl setAdd s).Nodup := by
  induction ps generalizing s with
  | nil => exact h
  | cons p ps ih => exact ih _ (nodup_setAdd p h)

theorem mem_foldl_gemStep (gems : List String) (s : List String) (x : String) :
    x ∈ gems.foldl gemStep s ↔
      x ∈ s ∨ ∃ g, g ∈ gems ∧ ∃ ps, GEM_PACKAGES.lookup g = some ps ∧ x ∈ ps := by
  induction gems generalizing s with
  | nil => simp
  | cons g gems ih =>
    rw [List.foldl_cons, ih]
    unfold gemStep
    cases h : GEM_PACKAGES.lookup g with
    | none =>
      simp only [List.mem_cons]
      constructor
      · rintro (hs | ⟨g2, hg2, hps⟩)
        · exact Or.inl hs
        · exact Or.inr ⟨g2, Or.inr hg2, hps⟩
      · rintro (hs | ⟨g2, (rfl | hg2), hps⟩)
        · exact Or.inl hs
        · obtain ⟨ps, hps1, _⟩ := hps
          rw [h] at hps1
          cases hps1
        · exact Or.inr ⟨g2, hg2, hps⟩
    | some ps =>
      rw [mem_foldl_setAdd]
      simp only [List.mem_cons]
      constructor
      · rintro ((hs | hx) | ⟨g2, hg2, hps⟩)
        · exact Or.inl hs
        · exact Or.inr ⟨g, Or.inl rfl, ps, h, hx⟩
        · exact Or.inr ⟨g2, Or.inr hg2, hps⟩
      · rintro (hs | ⟨g2, (rfl | hg2), hps⟩)
        · exact Or.inl (Or.inl hs)
        · obtain ⟨ps2, hps1, hx⟩ := hps
          rw [h] at hps1
          injection hps1 with hh
          rw [← hh] at hx
          exact Or.inl (Or.inr hx)
        · exact Or.inr ⟨g2, hg2, hps⟩

theorem nodup_foldl_gemStep (gems : List String) (s : List String)
    (h : s.Nodup) : (gems.foldl gemStep s).Nodup := by
  induction gems generalizing s with
  | nil => exact h
  | cons g gems ih =>
    rw [List.foldl_cons]
    apply ih
    unfold gemStep
    cases GEM_PACKAGES.lookup g with
    | none => exact h
    | some ps => exact nodup_foldl_setAdd ps s h

/-- Claim C3: the resolved extra-package list is exactly the sorted,
deduplicated union of the package lists mapped to each input gem found in
`GEM_PACKAGES` (a membership characterization together with sortedness and
no duplicates); gems absent from the mapping contribute nothing; and the
result is invariant under reordering and duplication of the input list
(any two inputs with the same members yield the same output). -/
theorem C3_needed_packages (gems : List String) :
    (∀ x, x ∈ _DetectNeededPackages gems ↔
      ∃ g, g ∈ gems ∧ ∃ ps, GEM_PACKAGES.lookup g = some ps ∧ x ∈ ps) ∧
    List.Sorted (fun a b => strSortLe a b = true) (_DetectNeededPackages gems) ∧
    (_DetectNeededPackages gems).Nodup ∧
    (∀ gems2, (∀ g, g ∈ gems ↔ g ∈ gems2) →
      _DetectNeededPackages gems = _DetectNeededPackages gems2) := by
  have hmem : ∀ (l : List String) (x : String),
      x ∈ _DetectNeededPackages l ↔
        ∃ g, g ∈ l ∧ ∃ ps, GEM_PACKAGES.lookup g = some ps ∧ x ∈ ps := by
    intro l x
    unfold _DetectNeededPackages
    rw [List.mem_insertionSort, mem_foldl_gemStep]
    simp
  have hsorted : ∀ l : List String,
      List.Sorted (fun a b => strSortLe a b = true) (_DetectNeededPackages l) := by
    intro l
    exact List.sorted_insertionSort _ _
  have hnodup : ∀ l : List String, (_DetectNeededPackages l).Nodup := by
    intro l
    unfold _DetectNeededPackages
    exact (List.perm_insertionSort _ _).nodup_iff.mpr
      (nodup_foldl_gemStep l [] (by simp))
  refine ⟨hmem gems, hsorted gems, hnodup gems, ?_⟩
  intro gems2 hiff
  apply List.eq_of_perm_of_sorted ?_ (hsorted gems) (hsorted gems2)
  rw [List.perm_ext_iff_of_nodup (hnodup gems) (hnodup gems2)]
  intro a
  rw [hmem gems a, hmem gems2 a]
  constructor
  · rintro ⟨g, hg, hps⟩
    exact ⟨g, (hiff g).mp hg, hps⟩
  · rintro ⟨g, hg, hps⟩
    exact ⟨g, (hiff g).mpr hg, hps⟩

/-- Claim C3, witness: a duplicated, reordered input yields the same
sorted union. -/
theorem C3_witness :
    _DetectNeededPackages ["rgeo", "x", "rgeo"]
      = _DetectNeededPackages ["x", "rgeo"] ∧
    _DetectNeededPackages ["rgeo", "x", "rgeo"]
      = ["libgeos-dev", "libproj-dev"] := by
  refine ⟨(C3_needed_packages ["rgeo", "x", "rgeo"]).2.2.2 ["x", "rgeo"] ?_, rfl⟩
  intro g
  simp only [List.mem_cons, List.not_mem_nil, or_false]
  tauto

theorem splitLinesCh_append (xs rest : List Char) (h : '\n' ∉ xs) :
    splitLinesCh (xs ++ '\n' :: rest) = xs :: splitLinesCh rest := by
  induction xs with
  | nil => simp [splitLinesCh]
  | cons c cs ih =>
    have hc : c ≠ '\n' := fun he2 => h (he2 ▸ List.mem_cons_self c cs)
    have h2 : '\n' ∉ cs := fun hm => h (List.mem_cons_of_mem c hm)
    rw [List.cons_append]
    simp only [splitLinesCh, if_neg hc]
    rw [ih h2]

theorem leadsWith_self_append (p s : List Char) : leadsWith p (p ++ s) = true := by
  induction p with
  | nil => rfl
  | cons c cs ih => simp [leadsWith, ih]

/-- Claim C9 (amended): for every runtime token and every entrypoint string
containing no newline character, rendering the declarative config and
parsing it back recovers exactly the runtime and entrypoint supplied; an
entrypoint with an embedded newline breaks the round trip (see the
counterexample). -/
theorem C9_roundtrip (r e : String) (hr : '\n' ∉ r.toList)
    (he : '\n' ∉ e.toList) :
    ParseAppYaml (APP_YAML_CONTENTS r e) = some (r, e) := by
  have hnl1 : '\n' ∉ "runtime: ".toList ++ r.toList := by
    intro hm
    rcases List.mem_append.mp hm with hm1 | hm2
    · exact absurd hm1 (by decide)
    · exact hr hm2
  have hnl2 : '\n' ∉ "entrypoint: ".toList ++ e.toList := by
    intro hm
    rcases List.mem_append.mp hm with hm1 | hm2
    · exact absurd hm1 (by decide)
    · exact he hm2
  have h1 : (APP_YAML_CONTENTS r e).toList
      = "env: flex".toList ++ '\n' ::
          (("runtime: ".toList ++ r.toList) ++ '\n' ::
            (("entrypoint: ".toList ++ e.toList) ++ '\n' :: ([] : List Char))) := by
    show ("env: flex\nruntime: " ++ r ++ "\nentrypoint: " ++ e ++ "\n").toList = _
    rw [show ∀ s t : String, (s ++ t).toList = s.toList ++ t.toList
          from fun s t => rfl]
    rw [show ∀ s t : String, (s ++ t).toList = s.toList ++ t.toList
          from fun s t => rfl]
    rw [show ∀ s t : String, (s ++ t).toList = s.toList ++ t.toList
          from fun s t => rfl]
    rw [show ∀ s t : String, (s ++ t).toList = s.toList ++ t.toList
          from fun s t => rfl]
    rw [show ("env: flex\nruntime: " : String).toList
          = "env: flex".toList ++ '\n' :: "runtime: ".toList from rfl]
    rw [show ("\nentrypoint: " : String).toList
          = '\n' :: "entrypoint: ".toList from rfl]
    rw [show ("\n" : String).toList = ['\n'] from rfl]
    simp [List.append_assoc]
  have hsplit : splitLinesCh (APP_YAML_CONTENTS r e).toList
      = ["env: flex".toList, "runtime: ".toList ++ r.toList,
         "entrypoint: ".toList ++ e.toList, []] := by
    rw [h1]
    rw [splitLinesCh_append _ _ (by decide)]
    rw [splitLinesCh_append _ _ hnl1]
    rw [splitLinesCh_append _ _ hnl2]
    rfl
  have hA : leadsWith "runtime: ".toList "env: flex".toList = false := rfl
  have hB : leadsWith "entrypoint: ".toList "env: flex".toList = false := rfl
  have hC : ∀ t : List Char,
      leadsWith "entrypoint: ".toList ("runtime: ".toList ++ t) = false :=
    fun t => rfl
  unfold ParseAppYaml
  rw [hsplit]
  simp only [findKeyLine, hA, hB, hC, leadsWith_self_append,
    Bool.false_eq_true, if_false, if_true, List.drop_left]
  rfl

/-- Claim C9, witness: round trip at a concrete runtime and entrypoint. -/
theorem C9_witness :
    ParseAppYaml (APP_YAML_CONTENTS "ruby" "bundle exec rackup -p 8080")
      = some ("ruby", "bundle exec rackup -p 8080") :=
  C9_roundtrip "ruby" "bundle exec rackup -p 8080" (by decide) (by decide)

/-- Claim C9, counterexample to the claim as stated: an entrypoint
containing a newline renders to a config that parses back to a different
entrypoint, so the round trip does not hold for every supplied string. -/
theorem C9_counterexample :
    ParseAppYaml (APP_YAML_CONTENTS "custom" "a\nentrypoint: b")
      = some ("custom", "a") ∧
    ("a" : String) ≠ "a\nentrypoint: b" := by
  exact ⟨rfl, by decide⟩

end Spec2Proof
